import Mathlib

/-!
Shallow embedding of `pc_report.py` (PcReportGenerator): the Collector
functions (`get_system_info`, `get_cpu_info`, `get_memory_info`,
`get_disk_info`, `get_battery_info`, `get_network_info`, `get_gpu_info`,
`get_display_info`, `get_input_devices_info`, `get_io_ports_info`,
`get_power_info`) and the Reporter (`create_table_with_data` and the story
assembled by `create_pdf_report`).

The host state read by `psutil`, `wmi` and `platform` is modelled by an
explicit `Env` record; an exception raised by a query is modelled by an
`Option` field of `Env` being `none` (or, for the in-loop enumerations,
by a `some errMsg` failure flag together with the list of records yielded
before the exception).  Python dict values are modelled by `Value`
(Python objects of type `str`, `int`, `bool` or `None`), since the script
stores non-string values in some fields and the Reporter filters rows
with `isinstance(v, str)`.
-/

namespace PcReport

/-- A Python value stored in one of the script's info dicts: the script
stores `str`, `int`, `bool` and `None` values. -/
inductive Value where
  | str : String → Value
  | int : Int → Value
  | bool : Bool → Value
  | none : Value
deriving DecidableEq, Repr

/-- Python string of a `Value`, as `str()` would produce. Only applied by the
Reporter to `'Error'` values, which the script always stores as strings. -/
def Value.text : Value → String
  | .str s => s
  | .int n => toString n
  | .bool b => if b then "True" else "False"
  | .none => "None"

/-- `True` exactly for values of Python type `str`. -/
def Value.isStr : Value → Bool
  | .str _ => true
  | _ => false

/-- One of the script's per-domain info dicts: an insertion-ordered mapping
from field name to value (Python dict). -/
abbrev Report := List (String × Value)

/-- Python `d[k]` / `k in d`: first (unique, in a dict) binding of `k`. -/
def lookupVal (r : Report) (k : String) : Option Value :=
  (List.find? (fun p => p.1 == k) r).map (fun p => p.2)

/-- The exact rational value of a CPython float, kept as an unnormalized
numerator/denominator pair (denominators are positive in every use).
Arithmetic on `PyFloat` is exact rational arithmetic; this agrees with
CPython double arithmetic for every value this development evaluates
(the quotients the script formats are exact at the precision it prints). -/
structure PyFloat where
  num : Int
  den : Nat
deriving DecidableEq, Repr

instance : NatCast PyFloat := ⟨fun n => ⟨(n : Int), 1⟩⟩

instance : IntCast PyFloat := ⟨fun n => ⟨n, 1⟩⟩

instance (n : Nat) : OfNat PyFloat n := ⟨⟨(n : Int), 1⟩⟩

instance : Mul PyFloat :=
  ⟨fun x y => ⟨x.num * y.num, x.den * y.den⟩⟩

instance : Div PyFloat :=
  ⟨fun x y =>
    ⟨(if y.num < 0 then -(x.num * (y.den : Int)) else x.num * (y.den : Int)),
      x.den * y.num.natAbs⟩⟩

instance : Pow PyFloat Nat :=
  ⟨fun x n => ⟨x.num ^ n, x.den ^ n⟩⟩

/-- Digits of the finite decimal expansion of `r / d` for `0 ≤ r < d`,
with fuel; used to model CPython `str()` on floats whose shortest repr is
their finite decimal expansion (the case for every value the script
prints). -/
def fracDigitsAux : Nat → Nat → Nat → String
  | 0, _, _ => ""
  | fuel + 1, r, d =>
    if r = 0 then ""
    else toString (r * 10 / d) ++ fracDigitsAux fuel (r * 10 % d) d

/-- Models CPython `str()` on a float value with a short finite decimal
expansion (e.g. the one-decimal percentages psutil reports): sign, integer
part, then fractional digits, with `.0` when the value is integral. -/
def pyStr (q : PyFloat) : String :=
  let a := q.num.natAbs
  let ds := fracDigitsAux 17 (a % q.den) q.den
  (if q.num < 0 then "-" else "") ++ toString (a / q.den) ++ "." ++
    (if ds = "" then "0" else ds)

/-- Round a `PyFloat` to the nearest integer, ties to even — the rounding
of CPython's fixed-point float formatting (exact for the values appearing
in this development). -/
def roundHalfEven (q : PyFloat) : Int :=
  let f := q.num.fdiv (q.den : Int)
  let r2 := 2 * (q.num - f * (q.den : Int))
  if r2 < (q.den : Int) then f
  else if (q.den : Int) < r2 then f + 1
  else if f % 2 = 0 then f else f + 1

/-- Models a Python f-string `f"{q:.2f}"`: two fixed decimal digits. -/
def formatFixed2 (q : PyFloat) : String :=
  let m := roundHalfEven (q * 100)
  let a := m.natAbs
  (if m < 0 then "-" else "") ++ toString (a / 100) ++ "." ++
    (if a % 100 < 10 then "0" else "") ++ toString (a % 100)

/-- Python `x or 'N/A'` for an optional string `x` (`None` and `""` are
falsy). -/
def orNA : Option String → String
  | Option.none => "N/A"
  | some s => if s = "" then "N/A" else s

/-- Python `x or 'N/A'` for an optional integer field `x` (`None` and `0`
are falsy): the truthy integer is stored raw, otherwise the string. -/
def pyOrNAInt : Option Nat → Value
  | Option.none => Value.str "N/A"
  | some n => if n = 0 then Value.str "N/A" else Value.int (n : Int)

/-- Python truthiness of an optional unsigned integer. -/
def truthyNat : Option Nat → Bool
  | Option.none => false
  | some n => n != 0

/-- Python f-string interpolation of an optional integer (`None` prints as
`"None"`). -/
def pyShow : Option Nat → String
  | Option.none => "None"
  | some n => toString n

/-- One record of `Win32_Processor`. -/
structure ProcRec where
  name : String
  manufacturer : String
  description : String
  maxClockSpeed : Nat
  architecture : Int
  family : Int
  processorId : String
  socket : String

/-- One record of `Win32_VideoController`. -/
structure GpuRec where
  name : String
  adapterCompatibility : Option String
  videoProcessor : Option String
  adapterRAM : Option Nat
  driverVersion : Option String
  driverDate : Option String
  videoMemoryType : Option Nat
  curHRes : Option Nat
  curVRes : Option Nat
  refreshRate : Option Nat
  adapterDACType : Option String
  bitsPerPixel : Option Nat

/-- One record of `Win32_Battery`. -/
structure BatRec where
  name : Option String
  description : Option String
  status : Option String
  chemistry : Option Nat
  designCapacity : Option Nat
  fullChargeCapacity : Option Nat
  designVoltage : Option Nat
  expectedLife : Option Nat
  smartBatteryVersion : Option String

/-- One entry of `psutil.disk_partitions()`. -/
structure Partition where
  device : String
  mountpoint : String
  fstype : String

/-- Result of `psutil.disk_usage(mountpoint)`. -/
structure DiskUsage where
  total : Nat
  used : Nat
  free : Nat
  percent : PyFloat

/-- Result of `psutil.sensors_battery()` when a battery is present. -/
structure SensorBattery where
  percent : PyFloat
  powerPlugged : Bool
  secsleft : Int

/-- One address record of `psutil.net_if_addrs()`. -/
structure Addr where
  familyName : String
  address : String
  netmask : Option String
  broadcast : Option String

/-- One record of `Win32_DesktopMonitor`. -/
structure MonitorRec where
  name : Option String
  monitorManufacturer : Option String
  monitorType : Option String
  screenHeight : Option Nat
  screenWidth : Option Nat

/-- One record of `Win32_VideoController` as read by `get_display_info`. -/
structure CtrlRec where
  name : Option String
  curHRes : Option Nat
  curVRes : Option Nat
  refreshRate : Option Nat
  bitsPerPixel : Option Nat

/-- One record of `Win32_Keyboard`. -/
structure KbRec where
  name : Option String
  description : Option String
  pnpDeviceID : Option String

/-- One record of `Win32_PointingDevice`. -/
structure MouseRec where
  name : Option String
  description : Option String
  pnpDeviceID : Option String

/-- One record of `Win32_USBController`. -/
structure UsbRec where
  name : Option String
  description : Option String
  manufacturer : Option String

/-- One record of `Win32_SerialPort`. -/
structure SerialRec where
  name : Option String
  description : Option String

/-- The host state observed by one run of the script.  `Option` query fields
with value `none` model the query raising an exception; the `...Fail` flags
model an exception raised by a WMI enumeration after it has yielded the
records listed in the corresponding list fields. -/
structure Env where
  sysSystem : String
  sysNode : String
  sysRelease : String
  sysVersion : String
  sysMachine : String
  sysProcessor : String
  /-- `wmi.WMI().Win32_Processor()`; `none` models the query raising. -/
  wmiProcessors : Option (List ProcRec)
  /-- `str(e)` of the exception raised by the CPU query when it fails. -/
  cpuErrMsg : String
  physCores : Option Nat
  logicalCores : Option Nat
  cpuFreqCurrent : PyFloat
  cpuPercent : PyFloat
  memTotal : Nat
  memAvailable : Nat
  memUsed : Nat
  memPercent : PyFloat
  partitions : List Partition
  /-- `psutil.disk_usage` by mountpoint; `none` models the call raising. -/
  diskUsage : String → Option DiskUsage
  /-- `hasattr(psutil, "sensors_battery")`. -/
  sensorHasAttr : Bool
  /-- `psutil.sensors_battery()`; `none` models a `None` result. -/
  sensorBattery : Option SensorBattery
  netIfAddrs : List (String × List Addr)
  gpuRecords : List GpuRec
  gpuFail : Option String
  monitors : List MonitorRec
  dispControllers : List CtrlRec
  displayFail : Option String
  keyboards : List KbRec
  mice : List MouseRec
  inputFail : Option String
  usbControllers : List UsbRec
  serialPorts : List SerialRec
  ioFail : Option String
  wmiBatteries : List BatRec
  powerFail : Option String
  timestamp : String

/-- `get_system_info()`. -/
def get_system_info (env : Env) : Report :=
  [("System", Value.str env.sysSystem),
   ("Node Name", Value.str env.sysNode),
   ("Release", Value.str env.sysRelease),
   ("Version", Value.str env.sysVersion),
   ("Machine", Value.str env.sysMachine),
   ("Processor", Value.str env.sysProcessor)]

/-- The raw `psutil.cpu_count(...)` value stored by `get_cpu_info`: an
`int`, or `None` when psutil cannot determine the count. -/
def valOfCount : Option Nat → Value
  | Option.none => Value.none
  | some n => Value.int (n : Int)

/-- The dict built by `get_cpu_info` from the first `Win32_Processor`
record. -/
def cpuData (env : Env) (cpu : ProcRec) : Report :=
  [("Name", Value.str cpu.name),
   ("Manufacturer", Value.str cpu.manufacturer),
   ("Description", Value.str cpu.description),
   ("Physical Cores", valOfCount env.physCores),
   ("Total Cores", valOfCount env.logicalCores),
   ("Max Clock Speed", Value.str (toString cpu.maxClockSpeed ++ " MHz")),
   ("Current Clock Speed", Value.str (formatFixed2 env.cpuFreqCurrent ++ " MHz")),
   ("CPU Usage", Value.str (pyStr env.cpuPercent ++ "%")),
   ("Architecture", Value.int cpu.architecture),
   ("Family", Value.int cpu.family),
   ("ProcessorId", Value.str cpu.processorId),
   ("Socket", Value.str cpu.socket)]

/-- `get_cpu_info()`: the whole `try` body is replaced by the error dict if
the WMI query raises (`wmiProcessors = none`) or yields no record (then
`[0]` raises `IndexError("list index out of range")`). -/
def get_cpu_info (env : Env) : Report :=
  match env.wmiProcessors with
  | Option.none =>
    [("Error", Value.str ("Could not retrieve detailed CPU information: " ++ env.cpuErrMsg))]
  | some [] =>
    [("Error", Value.str ("Could not retrieve detailed CPU information: list index out of range"))]
  | some (cpu :: _) => cpuData env cpu

/-- `get_memory_info()`. -/
def get_memory_info (env : Env) : Report :=
  [("Total Memory", Value.str (formatFixed2 ((env.memTotal : PyFloat) / (1024 ^ 3)) ++ " GB")),
   ("Available Memory", Value.str (formatFixed2 ((env.memAvailable : PyFloat) / (1024 ^ 3)) ++ " GB")),
   ("Used Memory", Value.str (formatFixed2 ((env.memUsed : PyFloat) / (1024 ^ 3)) ++ " GB")),
   ("Memory Usage", Value.str (pyStr env.memPercent ++ "%"))]

/-- The per-partition dict stored by `get_disk_info`. -/
def diskFields (p : Partition) (u : DiskUsage) : Report :=
  [("Mount Point", Value.str p.mountpoint),
   ("File System", Value.str p.fstype),
   ("Total Size", Value.str (formatFixed2 ((u.total : PyFloat) / (1024 ^ 3)) ++ " GB")),
   ("Used", Value.str (formatFixed2 ((u.used : PyFloat) / (1024 ^ 3)) ++ " GB")),
   ("Free", Value.str (formatFixed2 ((u.free : PyFloat) / (1024 ^ 3)) ++ " GB")),
   ("Usage", Value.str (pyStr u.percent ++ "%"))]

/-- Python dict assignment `m[k] = v`: replaces the value in place if the
key is present (keeping its position), appends otherwise. -/
def dictInsert (m : List (String × Report)) (k : String) (v : Report) :
    List (String × Report) :=
  if m.any (fun p => p.1 == k) then
    m.map (fun p => if p.1 == k then (k, v) else p)
  else m ++ [(k, v)]

/-- One iteration of the `get_disk_info` loop: store the partition's dict
under its device key if the usage query succeeds, otherwise `continue`
(the bare `except` clause). -/
def diskStep (env : Env) (acc : List (String × Report)) (p : Partition) :
    List (String × Report) :=
  match env.diskUsage p.mountpoint with
  | Option.none => acc
  | some u => dictInsert acc p.device (diskFields p u)

/-- `get_disk_info()`: one dict entry per partition device whose usage
query succeeds; a partition whose usage query raises is skipped
(`except: continue`). -/
def get_disk_info (env : Env) : List (String × Report) :=
  env.partitions.foldl (diskStep env) []

/-- `get_battery_info()` (defined by the script but never called by
`create_pdf_report`). -/
def get_battery_info (env : Env) : Report :=
  if env.sensorHasAttr then
    match env.sensorBattery with
    | some b =>
      [("Percent", Value.str (pyStr b.percent ++ "%")),
       ("Power Plugged", Value.bool b.powerPlugged),
       ("Time Left", Value.str
         (if b.secsleft != -1 then formatFixed2 ((b.secsleft : PyFloat) / 3600) ++ " hours"
          else "Unknown"))]
    | Option.none => []
  else []

/-- One address dict built by `get_network_info`. -/
def addrData (a : Addr) : Report :=
  [("Family", Value.str a.familyName),
   ("Address", Value.str a.address),
   ("Netmask", Value.str (orNA a.netmask)),
   ("Broadcast", Value.str (orNA a.broadcast))]

/-- `get_network_info()`: per interface, the list of its address dicts. -/
def get_network_info (env : Env) : List (String × List Report) :=
  env.netIfAddrs.map (fun p => (p.1, p.2.map addrData))

/-- The per-controller dict built by `get_gpu_info`. -/
def gpuData (g : GpuRec) : Report :=
  [("Name", Value.str g.name),
   ("Manufacturer", Value.str (orNA g.adapterCompatibility)),
   ("Video Processor", Value.str (orNA g.videoProcessor)),
   ("Video Memory",
     match g.adapterRAM with
     | some n =>
       if n ≠ 0 then Value.str (formatFixed2 ((n : PyFloat) / (1024 ^ 3)) ++ " GB")
       else Value.str "N/A"
     | Option.none => Value.str "N/A"),
   ("Driver Version", Value.str (orNA g.driverVersion)),
   ("Driver Date", Value.str (orNA g.driverDate)),
   ("Video Memory Type", pyOrNAInt g.videoMemoryType),
   ("Current Resolution",
     match g.curHRes with
     | some h =>
       if h ≠ 0 then Value.str (toString h ++ "x" ++ pyShow g.curVRes)
       else Value.str "N/A"
     | Option.none => Value.str "N/A"),
   ("Refresh Rate",
     match g.refreshRate with
     | some r =>
       if r ≠ 0 then Value.str (toString r ++ " Hz") else Value.str "N/A"
     | Option.none => Value.str "N/A"),
   ("DAC Type", Value.str (orNA g.adapterDACType)),
   ("Bits Per Pixel", pyOrNAInt g.bitsPerPixel)]

/-- The error dict appended when a WMI enumeration raises: `[{'Error': pre
++ str(e)}]` when the failure flag is set, nothing otherwise. -/
def errTail (fail : Option String) (pre : String) : List Report :=
  match fail with
  | some msg => [[("Error", Value.str (pre ++ msg))]]
  | Option.none => []

/-- `get_gpu_info()`: the dicts appended before the exception (if any) stay
in the list; the error dict is appended after them. -/
def get_gpu_info (env : Env) : List Report :=
  env.gpuRecords.map gpuData ++ errTail env.gpuFail "Could not retrieve GPU information: "

/-- The per-monitor dict built by `get_display_info`. -/
def monData (m : MonitorRec) : Report :=
  [("Name", Value.str (orNA m.name)),
   ("Manufacturer", Value.str (orNA m.monitorManufacturer)),
   ("Model", Value.str (orNA m.monitorType)),
   ("Screen Height",
     match m.screenHeight with
     | some h => if h ≠ 0 then Value.str (toString h ++ " pixels") else Value.str "N/A"
     | Option.none => Value.str "N/A"),
   ("Screen Width",
     match m.screenWidth with
     | some w => if w ≠ 0 then Value.str (toString w ++ " pixels") else Value.str "N/A"
     | Option.none => Value.str "N/A")]

/-- The per-video-controller dict built by `get_display_info`. -/
def ctrlData (c : CtrlRec) : Report :=
  [("Display Adapter", Value.str (orNA c.name)),
   ("Current Resolution",
     match c.curHRes with
     | some h =>
       if h ≠ 0 then Value.str (toString h ++ "x" ++ pyShow c.curVRes)
       else Value.str "N/A"
     | Option.none => Value.str "N/A"),
   ("Refresh Rate",
     match c.refreshRate with
     | some r => if r ≠ 0 then Value.str (toString r ++ " Hz") else Value.str "N/A"
     | Option.none => Value.str "N/A"),
   ("Color Depth",
     match c.bitsPerPixel with
     | some b => if b ≠ 0 then Value.str (toString b ++ " bits") else Value.str "N/A"
     | Option.none => Value.str "N/A")]

/-- `get_display_info()`. -/
def get_display_info (env : Env) : List Report :=
  env.monitors.map monData ++ env.dispControllers.map ctrlData ++
    errTail env.displayFail "Could not retrieve display information: "

/-- The per-keyboard dict built by `get_input_devices_info`. -/
def kbData (k : KbRec) : Report :=
  [("Device Type", Value.str "Keyboard"),
   ("Name", Value.str (orNA k.name)),
   ("Description", Value.str (orNA k.description)),
   ("PNP Device ID", Value.str (orNA k.pnpDeviceID))]

/-- The per-pointing-device dict built by `get_input_devices_info`. -/
def mouseData (m : MouseRec) : Report :=
  [("Device Type", Value.str "Pointing Device"),
   ("Name", Value.str (orNA m.name)),
   ("Description", Value.str (orNA m.description)),
   ("PNP Device ID", Value.str (orNA m.pnpDeviceID))]

/-- `get_input_devices_info()`. -/
def get_input_devices_info (env : Env) : List Report :=
  env.keyboards.map kbData ++ env.mice.map mouseData ++
    errTail env.inputFail "Could not retrieve input devices information: "

/-- The per-USB-controller dict built by `get_io_ports_info`. -/
def usbData (u : UsbRec) : Report :=
  [("Port Type", Value.str "USB"),
   ("Name", Value.str (orNA u.name)),
   ("Description", Value.str (orNA u.description)),
   ("Manufacturer", Value.str (orNA u.manufacturer))]

/-- The per-serial-port dict built by `get_io_ports_info`. -/
def serialData (s : SerialRec) : Report :=
  [("Port Type", Value.str "Serial"),
   ("Name", Value.str (orNA s.name)),
   ("Description", Value.str (orNA s.description))]

/-- `get_io_ports_info()`. -/
def get_io_ports_info (env : Env) : List Report :=
  env.usbControllers.map usbData ++ env.serialPorts.map serialData ++
    errTail env.ioFail "Could not retrieve I/O ports information: "

/-- The dict built by `get_power_info` from one `Win32_Battery` record. -/
def powerFields (rec : BatRec) : Report :=
  [("Name", Value.str (orNA rec.name)),
   ("Description", Value.str (orNA rec.description)),
   ("Status", Value.str (orNA rec.status)),
   ("Battery Type", pyOrNAInt rec.chemistry),
   ("Design Capacity", pyOrNAInt rec.designCapacity),
   ("Full Charge Capacity", pyOrNAInt rec.fullChargeCapacity),
   ("Health Status",
     if truthyNat rec.fullChargeCapacity && truthyNat rec.designCapacity then
       Value.str
         (formatFixed2
           (((rec.fullChargeCapacity.getD 0 : Nat) : PyFloat) /
             ((rec.designCapacity.getD 0 : Nat) : PyFloat) * 100) ++ "%")
     else Value.str "N/A"),
   ("Voltage",
     match rec.designVoltage with
     | some v => if v ≠ 0 then Value.str (formatFixed2 ((v : PyFloat) / 1000) ++ "V") else Value.str "N/A"
     | Option.none => Value.str "N/A"),
   ("Expected Life", pyOrNAInt rec.expectedLife),
   ("Smart Battery Version", Value.str (orNA rec.smartBatteryVersion))]

/-- The fields `power_info.update(...)` adds from `psutil.sensors_battery()`
when it returns a battery. -/
def sensorFields (b : SensorBattery) : Report :=
  [("Current Charge", Value.str (pyStr b.percent ++ "%")),
   ("Power Plugged", Value.str (if b.powerPlugged then "Yes" else "No")),
   ("Time Left", Value.str
     (if b.secsleft != -1 then formatFixed2 ((b.secsleft : PyFloat) / 3600) ++ " hours"
      else "Unknown"))]

/-- `get_power_info()`: the loop rebinds `power_info` for every
`Win32_Battery` record (so the last record wins), appending the sensor
fields inside the loop body; an exception in the `try` block replaces the
whole dict with the error dict. -/
def get_power_info (env : Env) : Report :=
  match env.powerFail with
  | some msg => [("Error", Value.str ("Could not retrieve power information: " ++ msg))]
  | Option.none =>
    env.wmiBatteries.foldl
      (fun _ rec =>
        powerFields rec ++
          (match env.sensorBattery with
           | some b => sensorFields b
           | Option.none => []))
      []

/-- One flowable appended to the `story` list by `create_pdf_report`:
the title paragraph, a `Heading2` section title, a `Heading3` element
subheading, a normal-style paragraph, a two-column table of rows, or a
spacer.  Layout styling is out of scope and not modelled. -/
inductive Elem where
  | h1 : String → Elem
  | h2 : String → Elem
  | h3 : String → Elem
  | para : String → Elem
  | table : List (String × String) → Elem
  | spacer : Elem
deriving DecidableEq, Repr

/-- The `data` argument of `create_table_with_data`: a single dict or a
list of dicts (the only two shapes the script passes). -/
inductive Data where
  | dict : Report → Data
  | list : List Report → Data

/-- The rows kept for a table: the `k, v` pairs with `isinstance(v, str)`,
in dict insertion order. -/
def stringRows (d : Report) : List (String × String) :=
  d.filterMap (fun p =>
    match p.2 with
    | Value.str s => some (p.1, s)
    | _ => Option.none)

/-- The dict branch of `create_table_with_data`: an `'Error'` dict renders
as its message paragraph; otherwise the string rows render as one table
(nothing if no row survives the string filter). -/
def renderDict (d : Report) : List Elem :=
  match lookupVal d "Error" with
  | some v => [Elem.para v.text, Elem.spacer]
  | Option.none =>
    if (stringRows d).isEmpty then []
    else [Elem.table (stringRows d), Elem.spacer]

/-- One iteration of the list branch of `create_table_with_data` at
enumeration index `idx`: an `'Error'` item renders as its message
paragraph and the loop continues; otherwise a `Heading3` subheading
`f"{title} {idx + 1}"` is emitted unless `is_nested`, then the item's
string rows as a table (nothing if no row survives). -/
def renderListItem (title : String) (is_nested : Bool) (idx : Nat) (item : Report) :
    List Elem :=
  match lookupVal item "Error" with
  | some v => [Elem.para v.text, Elem.spacer]
  | Option.none =>
    (if !is_nested then [Elem.h3 (title ++ " " ++ toString (idx + 1))] else []) ++
      (if (stringRows item).isEmpty then []
       else [Elem.table (stringRows item), Elem.spacer])

/-- The `for idx, item in enumerate(data)` loop of the list branch, with
`n` the enumeration index of the first remaining item. -/
def renderSeqAux (title : String) (is_nested : Bool) : Nat → List Report → List Elem
  | _, [] => []
  | n, item :: rest =>
    renderListItem title is_nested n item ++ renderSeqAux title is_nested (n + 1) rest

/-- `create_table_with_data(title, data, is_nested)`: the section title as
a `Heading2`, then the dict or list rendering. -/
def create_table_with_data (title : String) (data : Data) (is_nested : Bool) :
    List Elem :=
  Elem.h2 title ::
    (match data with
     | Data.dict d => renderDict d
     | Data.list l => renderSeqAux title is_nested 0 l)

/-- The title block `create_pdf_report` emits before the sections. -/
def titleBlock (env : Env) : List Elem :=
  [Elem.h1 "PC Status Report",
   Elem.para ("Generated on: " ++ env.timestamp),
   Elem.spacer]

/-- The per-device disk sections of `create_pdf_report`. -/
def diskSections (env : Env) : List Elem :=
  ((get_disk_info env).map
    (fun p => create_table_with_data ("Disk: " ++ p.1) (Data.dict p.2) false)).flatten

/-- The per-interface network sections of `create_pdf_report` (the only
calls passing `is_nested=True`). -/
def networkSections (env : Env) : List Elem :=
  ((get_network_info env).map
    (fun p =>
      create_table_with_data ("Network Interface: " ++ p.1) (Data.list p.2) true)).flatten

/-- The `story` list assembled by `create_pdf_report()` (the document built
from it by `doc.build` is out of scope). -/
def create_pdf_report (env : Env) : List Elem :=
  titleBlock env ++
  create_table_with_data "System Information" (Data.dict (get_system_info env)) false ++
  create_table_with_data "CPU Information" (Data.dict (get_cpu_info env)) false ++
  create_table_with_data "GPU Information" (Data.list (get_gpu_info env)) false ++
  create_table_with_data "Memory Information" (Data.dict (get_memory_info env)) false ++
  create_table_with_data "Display Information" (Data.list (get_display_info env)) false ++
  create_table_with_data "Power and Battery Information" (Data.dict (get_power_info env)) false ++
  diskSections env ++
  networkSections env ++
  create_table_with_data "Input Devices" (Data.list (get_input_devices_info env)) false ++
  create_table_with_data "I/O Ports" (Data.list (get_io_ports_info env)) false

/-- The section titles of a story: its `Heading2` texts, in order. -/
def sectionTitles (es : List Elem) : List String :=
  es.filterMap (fun e =>
    match e with
    | Elem.h2 t => some t
    | _ => Option.none)

/-- The partitions whose `psutil.disk_usage` query succeeds. -/
def successfulPartitions (env : Env) : List Partition :=
  env.partitions.filter (fun p => (env.diskUsage p.mountpoint).isSome)

/-- The device identifiers of the partitions whose usage query succeeds, in
partition order (with repetitions when one device is mounted at several
mountpoints). -/
def successDevices (env : Env) : List String :=
  (successfulPartitions env).map (fun p => p.device)

/-- Whether a section title is a per-device disk title `Disk: <device>`
(the title begins with `Disk: `). -/
def isDiskTitle (s : String) : Bool :=
  s.data.take 6 == "Disk: ".data

/-- The section order asserted by the spec's end-to-end property: titles
`System Information`, `CPU Information`, `Memory Information`, some
`Disk: <device>` title, and the battery/power title, at strictly
increasing positions. -/
def claimedSectionOrder (ts : List String) : Prop :=
  ∃ i1 i2 i3 i4 i5 : Fin ts.length,
    i1 < i2 ∧ i2 < i3 ∧ i3 < i4 ∧ i4 < i5 ∧
    ts.get i1 = "System Information" ∧ ts.get i2 = "CPU Information" ∧
    ts.get i3 = "Memory Information" ∧ isDiskTitle (ts.get i4) = true ∧
    ts.get i5 = "Power and Battery Information"

/-- A concrete `Win32_Processor` record. -/
def proc0 : ProcRec where
  name := "Intel(R) Core(TM) i5"
  manufacturer := "GenuineIntel"
  description := "x64 Family 6"
  maxClockSpeed := 2400
  architecture := 9
  family := 6
  processorId := "BFEBFBFF000906EA"
  socket := "U3E1"

/-- A concrete `Win32_VideoController` record with no optional data. -/
def gpu0 : GpuRec where
  name := "GPU-A"
  adapterCompatibility := Option.none
  videoProcessor := Option.none
  adapterRAM := Option.none
  driverVersion := Option.none
  driverDate := Option.none
  videoMemoryType := Option.none
  curHRes := Option.none
  curVRes := Option.none
  refreshRate := Option.none
  adapterDACType := Option.none
  bitsPerPixel := Option.none

/-- A second concrete `Win32_VideoController` record. -/
def gpu1 : GpuRec :=
  { gpu0 with name := "GPU-B" }

/-- A concrete `Win32_Battery` record with design capacity 5000 and
full-charge capacity 4750. -/
def bat95 : BatRec where
  name := some "BAT1"
  description := Option.none
  status := Option.none
  chemistry := Option.none
  designCapacity := some 5000
  fullChargeCapacity := some 4750
  designVoltage := Option.none
  expectedLife := Option.none
  smartBatteryVersion := Option.none

/-- `bat95` with design capacity 0. -/
def batZeroDesign : BatRec :=
  { bat95 with designCapacity := some 0 }

/-- `bat95` with design capacity missing. -/
def batNoDesign : BatRec :=
  { bat95 with designCapacity := Option.none }

/-- A concrete host with one successfully queried partition, one network
interface and one battery; the CPU, GPU, display, input and I/O queries
are empty or failed so that every claim variant below is a small update
of this record. -/
def baseEnv : Env where
  sysSystem := "Windows"
  sysNode := "host"
  sysRelease := "10"
  sysVersion := "10.0"
  sysMachine := "AMD64"
  sysProcessor := "Intel64"
  wmiProcessors := Option.none
  cpuErrMsg := "wmi down"
  physCores := some 4
  logicalCores := some 8
  cpuFreqCurrent := 0
  cpuPercent := 0
  memTotal := 0
  memAvailable := 0
  memUsed := 0
  memPercent := 0
  partitions := [⟨"C:", "C:/", "NTFS"⟩]
  diskUsage := fun mp => if mp == "C:/" then some ⟨0, 0, 0, 0⟩ else Option.none
  sensorHasAttr := true
  sensorBattery := Option.none
  netIfAddrs := [("eth0", [])]
  gpuRecords := []
  gpuFail := Option.none
  monitors := []
  dispControllers := []
  displayFail := Option.none
  keyboards := []
  mice := []
  inputFail := Option.none
  usbControllers := []
  serialPorts := []
  ioFail := Option.none
  wmiBatteries := [bat95]
  powerFail := Option.none
  timestamp := "2026-01-01 00:00:00"

/-- Host with two partitions of the same device, both with a successful
usage query. -/
def envDupDevice : Env :=
  { baseEnv with
    partitions := [⟨"C:", "C:/", "NTFS"⟩, ⟨"C:", "D:/", "NTFS"⟩],
    diskUsage := fun _ => some ⟨0, 0, 0, 0⟩ }

/-- Host where the CPU WMI query succeeds. -/
def envCpuOk : Env :=
  { baseEnv with wmiProcessors := some [proc0] }

/-- Host where the GPU enumeration yields one controller and then raises. -/
def envGpuMidFail : Env :=
  { baseEnv with gpuRecords := [gpu0], gpuFail := some "enumeration broke" }

/-- Host with two video controllers and a clean GPU enumeration. -/
def envTwoGpus : Env :=
  { baseEnv with gpuRecords := [gpu0, gpu1] }

/-- Host whose battery record has design capacity 0. -/
def envBatZeroDesign : Env :=
  { baseEnv with wmiBatteries := [batZeroDesign] }

/-- Host whose battery record has no design capacity. -/
def envBatNoDesign : Env :=
  { baseEnv with wmiBatteries := [batNoDesign] }

/-- Host whose battery sensor reports 7200 seconds left. -/
def envSensor7200 : Env :=
  { baseEnv with sensorBattery := some ⟨50, true, 7200⟩ }

/-- Host whose battery sensor reports an unknown time left. -/
def envSensorUnknown : Env :=
  { baseEnv with sensorBattery := some ⟨50, true, -1⟩ }

/-- Host with no `Win32_Battery` record. -/
def envNoWmiBattery : Env :=
  { baseEnv with wmiBatteries := [] }

/-- A list item carrying the error indicator. -/
def errItem : Report := [("Error", Value.str "boom")]

/-- A plain non-error list item with one string field. -/
def okItem1 : Report := [("Name", Value.str "first")]

/-- A second plain non-error list item. -/
def okItem2 : Report := [("Name", Value.str "second")]

/-- `dictInsert` leaves the key list unchanged when the key is present and
appends the key otherwise. -/
theorem dictInsert_keys (m : List (String × Report)) (k : String) (v : Report) :
    (dictInsert m k v).map Prod.fst =
      if m.any (fun p => p.1 == k) then m.map Prod.fst
      else m.map Prod.fst ++ [k] := by
  unfold dictInsert
  split
  · rw [List.map_map]
    apply List.map_congr_left
    intro p _
    simp only [Function.comp_apply]
    split
    · next h' => exact (eq_of_beq h').symm
    · rfl
  · simp

/-- Key membership after a `dictInsert`. -/
theorem dictInsert_keys_mem (m : List (String × Report)) (k : String) (v : Report)
    (d : String) :
    d ∈ (dictInsert m k v).map Prod.fst ↔ d ∈ m.map Prod.fst ∨ d = k := by
  rw [dictInsert_keys]
  split
  · next h =>
    have hk : k ∈ m.map Prod.fst := by
      rw [List.any_eq_true] at h
      obtain ⟨p, hp, hb⟩ := h
      exact List.mem_map.mpr ⟨p, hp, eq_of_beq hb⟩
    constructor
    · intro hd; exact Or.inl hd
    · rintro (hd | rfl)
      · exact hd
      · exact hk
  · simp

/-- `dictInsert` preserves key distinctness. -/
theorem dictInsert_keys_nodup (m : List (String × Report)) (k : String) (v : Report)
    (h : (m.map Prod.fst).Nodup) :
    ((dictInsert m k v).map Prod.fst).Nodup := by
  rw [dictInsert_keys]
  split
  · exact h
  · next hany =>
    have hk : k ∉ m.map Prod.fst := by
      intro hmem
      obtain ⟨p, hp, hpk⟩ := List.mem_map.mp hmem
      exact hany (List.any_eq_true.mpr ⟨p, hp, beq_iff_eq.mpr hpk⟩)
    simp [List.nodup_append, h, hk]

/-- Every entry of a `dictInsert` result comes from the old map or is the
inserted binding. -/
theorem dictInsert_mem_values (m : List (String × Report)) (k : String) (v : Report)
    (d : String) (r : Report) (h : (d, r) ∈ dictInsert m k v) :
    (d, r) ∈ m ∨ (d = k ∧ r = v) := by
  unfold dictInsert at h
  split at h
  · obtain ⟨p, hp, heq⟩ := List.mem_map.mp h
    by_cases hb : p.1 == k
    · rw [if_pos hb] at heq
      right
      exact ⟨(Prod.mk.injEq _ _ _ _ ▸ heq).1.symm ▸ rfl, ((Prod.mk.injEq _ _ _ _).mp heq).2.symm⟩
    · rw [if_neg hb] at heq
      exact Or.inl (heq ▸ hp)
  · rcases List.mem_append.mp h with h' | h'
    · exact Or.inl h'
    · right
      have := List.mem_singleton.mp h'
      exact ⟨((Prod.mk.injEq _ _ _ _).mp this).1, ((Prod.mk.injEq _ _ _ _).mp this).2⟩

/-- Key membership of the `get_disk_info` fold: a device is a key iff it
was a key of the accumulator or belongs to a partition of the remaining
list whose usage query succeeds. -/
theorem diskFold_keys_mem (env : Env) (l : List Partition) :
    ∀ (acc : List (String × Report)) (d : String),
      d ∈ (l.foldl (diskStep env) acc).map Prod.fst ↔
        d ∈ acc.map Prod.fst ∨
          d ∈ (l.filter (fun p => (env.diskUsage p.mountpoint).isSome)).map
                (fun p => p.device) := by
  induction l with
  | nil => simp
  | cons p tl ih =>
    intro acc d
    rw [List.foldl_cons, ih]
    cases hu : env.diskUsage p.mountpoint with
    | none =>
      have hstep : diskStep env acc p = acc := by simp [diskStep, hu]
      rw [hstep]
      simp [List.filter_cons, hu]
    | some u =>
      have hstep : diskStep env acc p = dictInsert acc p.device (diskFields p u) := by
        simp [diskStep, hu]
      rw [hstep, dictInsert_keys_mem]
      have hfil :
          (p :: tl).filter (fun q => (env.diskUsage q.mountpoint).isSome) =
            p :: tl.filter (fun q => (env.diskUsage q.mountpoint).isSome) := by
        simp [List.filter_cons, hu]
      rw [hfil, List.map_cons, List.mem_cons]
      tauto

/-- The `get_disk_info` fold preserves key distinctness. -/
theorem diskFold_keys_nodup (env : Env) (l : List Partition) :
    ∀ (acc : List (String × Report)), (acc.map Prod.fst).Nodup →
      ((l.foldl (diskStep env) acc).map Prod.fst).Nodup := by
  induction l with
  | nil => intro acc h; simpa using h
  | cons p tl ih =>
    intro acc h
    rw [List.foldl_cons]
    apply ih
    cases hu : env.diskUsage p.mountpoint with
    | none => simpa [diskStep, hu] using h
    | some u =>
      have hstep : diskStep env acc p = dictInsert acc p.device (diskFields p u) := by
        simp [diskStep, hu]
      rw [hstep]
      exact dictInsert_keys_nodup _ _ _ h

/-- Every entry the `get_disk_info` fold produces comes from the
accumulator or from a partition whose usage query succeeded. -/
theorem diskFold_values (env : Env) (l : List Partition) :
    ∀ (acc : List (String × Report)) (d : String) (r : Report),
      (d, r) ∈ l.foldl (diskStep env) acc →
        (d, r) ∈ acc ∨
          ∃ p u, p ∈ l ∧ env.diskUsage p.mountpoint = some u ∧
            d = p.device ∧ r = diskFields p u := by
  induction l with
  | nil => intro acc d r h; exact Or.inl (by simpa using h)
  | cons p tl ih =>
    intro acc d r h
    rw [List.foldl_cons] at h
    rcases ih _ d r h with h' | ⟨p', u', hp', hu', rfl, rfl⟩
    · cases hu : env.diskUsage p.mountpoint with
      | none =>
        rw [show diskStep env acc p = acc by simp [diskStep, hu]] at h'
        exact Or.inl h'
      | some u =>
        rw [show diskStep env acc p = dictInsert acc p.device (diskFields p u) by
          simp [diskStep, hu]] at h'
        rcases dictInsert_mem_values _ _ _ _ _ h' with h'' | ⟨rfl, rfl⟩
        · exact Or.inl h''
        · exact Or.inr ⟨p, u, List.mem_cons_self _ _, hu, rfl, rfl⟩
    · exact Or.inr ⟨p', u', List.mem_cons_of_mem _ hp', hu', rfl, rfl⟩

/-- C1 counterexample: two partitions of the same device with successful
usage queries yield one disk report, not two, so the number of per-device
reports can differ from the number of partitions whose usage query
succeeded. -/
theorem claim1_disk_count_counterexample :
    (get_disk_info envDupDevice).length ≠ (successfulPartitions envDupDevice).length := by
  decide

/-- C1 amended: a partition whose usage query raises is silently omitted —
every produced disk report carries no error entry and belongs to a device
of a successfully queried partition — and the number of per-device disk
reports equals the number of distinct devices among the partitions whose
usage query succeeded. -/
theorem claim1_disk_silent_skip (env : Env) :
    (get_disk_info env).length = (successDevices env).dedup.length ∧
    ∀ d r, (d, r) ∈ get_disk_info env →
      lookupVal r "Error" = Option.none ∧ d ∈ successDevices env := by
  constructor
  · have hmem : ∀ d, d ∈ (get_disk_info env).map Prod.fst ↔ d ∈ successDevices env := by
      intro d
      unfold get_disk_info
      rw [diskFold_keys_mem]
      simp [successDevices, successfulPartitions]
    have hnodup : ((get_disk_info env).map Prod.fst).Nodup := by
      unfold get_disk_info
      exact diskFold_keys_nodup env _ [] (by simp)
    have h2 : ((get_disk_info env).map Prod.fst).toFinset = (successDevices env).toFinset := by
      ext d
      simp only [List.mem_toFinset]
      exact hmem d
    calc (get_disk_info env).length
        = ((get_disk_info env).map Prod.fst).length := (List.length_map _ _).symm
      _ = ((get_disk_info env).map Prod.fst).dedup.length := by
          rw [List.Nodup.dedup hnodup]
      _ = ((get_disk_info env).map Prod.fst).toFinset.card := (List.card_toFinset _).symm
      _ = (successDevices env).toFinset.card := by rw [h2]
      _ = (successDevices env).dedup.length := List.card_toFinset _
  · intro d r h
    unfold get_disk_info at h
    rcases diskFold_values env env.partitions [] d r h with h' | ⟨p, u, hp, hu, rfl, rfl⟩
    · simp at h'
    · refine ⟨rfl, ?_⟩
      simp only [successDevices, successfulPartitions, List.mem_map, List.mem_filter]
      exact ⟨p, ⟨hp, by simp [hu]⟩, rfl⟩

/-- Witness for C1 amended at the concrete host `baseEnv`, whose single
partition queries successfully. -/
theorem claim1_disk_silent_skip_w :
    (get_disk_info baseEnv).length = (successDevices baseEnv).dedup.length ∧
    (lookupVal (diskFields ⟨"C:", "C:/", "NTFS"⟩ ⟨0, 0, 0, ⟨0, 1⟩⟩) "Error" = Option.none ∧
      "C:" ∈ successDevices baseEnv) :=
  ⟨(claim1_disk_silent_skip baseEnv).1,
    (claim1_disk_silent_skip baseEnv).2 "C:" (diskFields ⟨"C:", "C:/", "NTFS"⟩ ⟨0, 0, 0, ⟨0, 1⟩⟩)
      (by decide)⟩

/-- `sectionTitles` distributes over appends. -/
theorem sectionTitles_append (a b : List Elem) :
    sectionTitles (a ++ b) = sectionTitles a ++ sectionTitles b :=
  List.filterMap_append _ _ _

/-- The dict rendering contains no section title. -/
theorem sectionTitles_renderDict (d : Report) : sectionTitles (renderDict d) = [] := by
  rcases h : lookupVal d "Error" with _ | v
  · simp only [renderDict, h]
    split <;> rfl
  · simp only [renderDict, h]
    rfl

/-- A list-item rendering contains no section title. -/
theorem sectionTitles_renderListItem (t : String) (b : Bool) (i : Nat) (item : Report) :
    sectionTitles (renderListItem t b i item) = [] := by
  rcases h : lookupVal item "Error" with _ | v
  · simp only [renderListItem, h]
    rw [sectionTitles_append]
    rcases b <;> split <;> split <;> rfl
  · simp only [renderListItem, h]
    rfl

/-- The list rendering contains no section title. -/
theorem sectionTitles_renderSeqAux (t : String) (b : Bool) :
    ∀ (n : Nat) (l : List Report), sectionTitles (renderSeqAux t b n l) = [] := by
  intro n l
  induction l generalizing n with
  | nil => rfl
  | cons it rest ih =>
    show sectionTitles (renderListItem t b n it ++ renderSeqAux t b (n + 1) rest) = []
    rw [sectionTitles_append, sectionTitles_renderListItem, ih]
    rfl

/-- Each `create_table_with_data` call contributes exactly its own title. -/
theorem sectionTitles_ctwd (t : String) (d : Data) (b : Bool) :
    sectionTitles (create_table_with_data t d b) = [t] := by
  cases d with
  | dict m =>
    show t :: sectionTitles (renderDict m) = [t]
    rw [sectionTitles_renderDict]
  | list l =>
    show t :: sectionTitles (renderSeqAux t b 0 l) = [t]
    rw [sectionTitles_renderSeqAux]

/-- The title block contributes no section title. -/
theorem sectionTitles_titleBlock (env : Env) : sectionTitles (titleBlock env) = [] := rfl

/-- The disk sections contribute one `Disk: <device>` title per disk
report, in order. -/
theorem sectionTitles_diskSections (env : Env) :
    sectionTitles (diskSections env) =
      (get_disk_info env).map (fun p => "Disk: " ++ p.1) := by
  unfold diskSections
  generalize get_disk_info env = l
  induction l with
  | nil => rfl
  | cons e tl ih =>
    simp only [List.map_cons, List.flatten_cons]
    rw [sectionTitles_append, sectionTitles_ctwd, ih]
    rfl

/-- The network sections contribute one `Network Interface: <name>` title
per interface, in order. -/
theorem sectionTitles_networkSections (env : Env) :
    sectionTitles (networkSections env) =
      (get_network_info env).map (fun p => "Network Interface: " ++ p.1) := by
  unfold networkSections
  generalize get_network_info env = l
  induction l with
  | nil => rfl
  | cons e tl ih =>
    simp only [List.map_cons, List.flatten_cons]
    rw [sectionTitles_append, sectionTitles_ctwd, ih]
    rfl

/-- The section titles of every run: the six fixed leading sections, then
the disk sections, the network sections, and the two trailing sections. -/
theorem storyTitles (env : Env) :
    sectionTitles (create_pdf_report env) =
      ["System Information", "CPU Information", "GPU Information",
       "Memory Information", "Display Information",
       "Power and Battery Information"] ++
      (get_disk_info env).map (fun p => "Disk: " ++ p.1) ++
      ((get_network_info env).map (fun p => "Network Interface: " ++ p.1) ++
        ["Input Devices", "I/O Ports"]) := by
  unfold create_pdf_report
  simp only [sectionTitles_append, sectionTitles_titleBlock, sectionTitles_ctwd,
    sectionTitles_diskSections, sectionTitles_networkSections]
  simp

set_option maxHeartbeats 4000000

/-- C7 counterexample: on a host with a partition, an interface and a
battery, the claimed relative order (battery/power section after the disk
sections) does not hold: the battery/power section precedes every
`Disk: <device>` section. -/
theorem claim7_section_order_counterexample :
    ¬ claimedSectionOrder (sectionTitles (create_pdf_report baseEnv)) := by
  have h : sectionTitles (create_pdf_report baseEnv) =
      ["System Information", "CPU Information", "GPU Information",
       "Memory Information", "Display Information",
       "Power and Battery Information", "Disk: C:", "Network Interface: eth0",
       "Input Devices", "I/O Ports"] := by
    rw [storyTitles]
    decide
  rw [h]
  rintro ⟨i1, i2, i3, i4, i5, h12, h23, h34, h45, e1, e2, e3, e4, e5⟩
  fin_cases i4 <;> fin_cases i5 <;> revert h45 e4 e5 <;> decide

/-- C7 amended: the run contains the sections `System Information`,
`CPU Information`, `Memory Information`, the battery/power section and at
least one `Disk: <device>` section, but in the order System (0), CPU (1),
Memory (3), Power and Battery (5), first disk section (6): the
battery/power section comes before the disk sections, not after. -/
theorem claim7_section_order_amended (env : Env) (hd : get_disk_info env ≠ []) :
    ((sectionTitles (create_pdf_report env)).drop 0).head? = some "System Information" ∧
    ((sectionTitles (create_pdf_report env)).drop 1).head? = some "CPU Information" ∧
    ((sectionTitles (create_pdf_report env)).drop 3).head? = some "Memory Information" ∧
    ((sectionTitles (create_pdf_report env)).drop 5).head? =
      some "Power and Battery Information" ∧
    ∃ dev, ((sectionTitles (create_pdf_report env)).drop 6).head? =
      some ("Disk: " ++ dev) := by
  cases h : get_disk_info env with
  | nil => exact absurd h hd
  | cons e tl =>
    rw [storyTitles, h]
    exact ⟨rfl, rfl, rfl, rfl, ⟨e.1, rfl⟩⟩

/-- Witness for C7 amended at the concrete host `baseEnv`. -/
theorem claim7_section_order_amended_w :
    ((sectionTitles (create_pdf_report baseEnv)).drop 0).head? = some "System Information" ∧
    ((sectionTitles (create_pdf_report baseEnv)).drop 1).head? = some "CPU Information" ∧
    ((sectionTitles (create_pdf_report baseEnv)).drop 3).head? = some "Memory Information" ∧
    ((sectionTitles (create_pdf_report baseEnv)).drop 5).head? =
      some "Power and Battery Information" ∧
    ∃ dev, ((sectionTitles (create_pdf_report baseEnv)).drop 6).head? =
      some ("Disk: " ++ dev) :=
  claim7_section_order_amended baseEnv (by decide)

/-- No `Heading3` subheading occurs in a nested list rendering. -/
theorem h3_notin_renderSeqAux_nested (t s : String) :
    ∀ (n : Nat) (l : List Report), Elem.h3 s ∉ renderSeqAux t true n l := by
  intro n l
  induction l generalizing n with
  | nil => simp [renderSeqAux]
  | cons it rest ih =>
    intro hmem
    rw [show renderSeqAux t true n (it :: rest) =
          renderListItem t true n it ++ renderSeqAux t true (n + 1) rest from rfl,
      List.mem_append] at hmem
    rcases hmem with h | h
    · rcases hv : lookupVal it "Error" with _ | v
      · have hli : renderListItem t true n it =
            (if (stringRows it).isEmpty then []
             else [Elem.table (stringRows it), Elem.spacer]) := by
          simp [renderListItem, hv]
        rw [hli] at h
        split at h <;> simp at h
      · simp [renderListItem, hv] at h
    · exact ih (n + 1) h

/-- A non-error head item of a non-nested list rendering gets the indexed
`Heading3` subheading. -/
theorem h3_mem_renderSeqAux_head (t : String) (n : Nat) (item : Report)
    (rest : List Report) (h : lookupVal item "Error" = Option.none) :
    Elem.h3 (t ++ " " ++ toString (n + 1)) ∈ renderSeqAux t false n (item :: rest) := by
  rw [show renderSeqAux t false n (item :: rest) =
        renderListItem t false n item ++ renderSeqAux t false (n + 1) rest from rfl,
    List.mem_append]
  left
  simp only [renderListItem, h, Bool.not_false, if_true, List.cons_append]
  exact List.mem_cons_self _ _

/-- C8 counterexample: with two video controllers, the GPU section is
rendered non-nested and carries the per-element index subheading
`GPU Information 1`, although the claim designates GPU as a nested
domain without such subheadings. -/
theorem claim8_gpu_subheading_counterexample :
    Elem.h3 "GPU Information 1" ∈ create_pdf_report envTwoGpus := by
  decide

/-- C8 amended: only the network domain is rendered nested — no network
section ever contains a `Heading3` subheading — while a GPU sequence with
at least one cleanly enumerated controller gets the per-element index
subheading `GPU Information 1`. -/
theorem claim8_nested_rendering (env : Env) :
    (∀ s, Elem.h3 s ∉ networkSections env) ∧
    (env.gpuFail = Option.none → env.gpuRecords ≠ [] →
      Elem.h3 "GPU Information 1" ∈ create_pdf_report env) := by
  constructor
  · intro s
    unfold networkSections
    generalize get_network_info env = l
    induction l with
    | nil => simp
    | cons e tl ih =>
      simp only [List.map_cons, List.flatten_cons]
      rw [List.mem_append]
      rintro (h | h)
      · rcases List.mem_cons.mp h with h' | h'
        · exact absurd h' (by simp)
        · exact h3_notin_renderSeqAux_nested _ s 0 _ h'
      · exact ih h
  · intro hf hr
    cases hrec : env.gpuRecords with
    | nil => exact absurd hrec hr
    | cons r tl =>
      have hgpu : get_gpu_info env = gpuData r :: (tl.map gpuData ++ []) := by
        rw [get_gpu_info, hrec]
        simp [errTail, hf]
      have hmem : Elem.h3 "GPU Information 1" ∈
          create_table_with_data "GPU Information" (Data.list (get_gpu_info env)) false := by
        rw [hgpu]
        apply List.mem_cons_of_mem
        exact h3_mem_renderSeqAux_head "GPU Information" 0 (gpuData r) _ rfl
      unfold create_pdf_report
      exact List.mem_append_left _ (List.mem_append_left _ (List.mem_append_left _
        (List.mem_append_left _ (List.mem_append_left _ (List.mem_append_left _
        (List.mem_append_left _ (List.mem_append_right _ hmem)))))))

/-- Witness for C8 amended at the concrete host `envTwoGpus`. -/
theorem claim8_nested_rendering_w :
    Elem.h3 "GPU Information 1" ∈ create_pdf_report envTwoGpus :=
  (claim8_nested_rendering envTwoGpus).2 rfl (by simp [envTwoGpus, baseEnv])

/-- C2: whenever the WMI processor query raises, `get_cpu_info` returns
exactly the single-entry error indicator, and the psutil-sourced physical
and logical core counts do not appear in the returned report. -/
theorem claim2_cpu_atomic (env : Env) (h : env.wmiProcessors = Option.none) :
    get_cpu_info env =
      [("Error",
        Value.str ("Could not retrieve detailed CPU information: " ++ env.cpuErrMsg))] ∧
    ∀ v : Value, ("Physical Cores", v) ∉ get_cpu_info env ∧
      ("Total Cores", v) ∉ get_cpu_info env := by
  simp [get_cpu_info, h]

/-- Witness for C2 at the concrete host `baseEnv`, whose WMI processor
query raises with message `"wmi down"`. -/
theorem claim2_cpu_atomic_w :
    get_cpu_info baseEnv =
      [("Error",
        Value.str ("Could not retrieve detailed CPU information: " ++ "wmi down"))] ∧
    ∀ v : Value, ("Physical Cores", v) ∉ get_cpu_info baseEnv ∧
      ("Total Cores", v) ∉ get_cpu_info baseEnv :=
  claim2_cpu_atomic baseEnv rfl

/-- C3 counterexample: on a host where the video-controller enumeration
yields one controller and then raises, `get_gpu_info` returns a
two-element list whose first element is the collected controller dict
(not an error entry) — not a single-element error sequence. -/
theorem claim3_gpu_counterexample :
    (get_gpu_info envGpuMidFail).length = 2 ∧
    (get_gpu_info envGpuMidFail).head?.map (fun r => lookupVal r "Error") =
      some Option.none := by
  decide

/-- C3 amended: when the video-controller enumeration raises, the error
indicator is appended after the already-collected controller dicts: the
result has one element per collected controller plus a final error entry,
and it is a single-element error sequence only when the failure precedes
any collection. -/
theorem claim3_gpu_error_appended (env : Env) (msg : String)
    (h : env.gpuFail = some msg) :
    (get_gpu_info env).length = env.gpuRecords.length + 1 ∧
    (get_gpu_info env).getLast? =
      some [("Error", Value.str ("Could not retrieve GPU information: " ++ msg))] ∧
    (get_gpu_info env).take env.gpuRecords.length = env.gpuRecords.map gpuData := by
  refine ⟨?_, ?_, ?_⟩
  · simp [get_gpu_info, errTail, h]
  · simp [get_gpu_info, errTail, h]
  · simp only [get_gpu_info, h, errTail]
    exact List.take_left' (by simp)

/-- Witness for C3 amended at the concrete host `envGpuMidFail`. -/
theorem claim3_gpu_error_appended_w :
    (get_gpu_info envGpuMidFail).length = envGpuMidFail.gpuRecords.length + 1 ∧
    (get_gpu_info envGpuMidFail).getLast? =
      some [("Error",
        Value.str ("Could not retrieve GPU information: " ++ "enumeration broke"))] ∧
    (get_gpu_info envGpuMidFail).take envGpuMidFail.gpuRecords.length =
      envGpuMidFail.gpuRecords.map gpuData :=
  claim3_gpu_error_appended envGpuMidFail "enumeration broke" rfl

/-- C4 counterexample: on a host whose WMI processor query succeeds,
`get_cpu_info` stores the psutil physical core count as a raw integer,
so not every field value of a successfully produced report is a string. -/
theorem claim4_counterexample :
    ("Physical Cores", Value.int 4) ∈ get_cpu_info envCpuOk ∧
    (Value.int 4).isStr = false := by
  decide

/-- C5 counterexample: with design capacity 5000 and full-charge capacity
4750 the Health Status field renders as `"95.00%"` (the code formats with
two fixed decimals), not `"95.0%"`. -/
theorem claim5_health_counterexample :
    lookupVal (get_power_info baseEnv) "Health Status" = some (Value.str "95.00%") ∧
    Value.str "95.00%" ≠ Value.str "95.0%" := by
  decide

/-- C5 amended: with design capacity 5000 and full-charge capacity 4750
the Health Status field renders as `"95.00%"`; with design capacity 0 or
missing it renders as `"N/A"` (the truthiness guard prevents any division
by zero). -/
theorem claim5_health_amended :
    lookupVal (get_power_info baseEnv) "Health Status" = some (Value.str "95.00%") ∧
    lookupVal (get_power_info envBatZeroDesign) "Health Status" =
      some (Value.str "N/A") ∧
    lookupVal (get_power_info envBatNoDesign) "Health Status" =
      some (Value.str "N/A") := by
  decide

/-- C6 counterexample: for `secsleft = 7200` the Time Left field renders
as `"2.00 hours"`, not `"2.00 hrs"`. -/
theorem claim6_timeleft_counterexample :
    lookupVal (get_battery_info envSensor7200) "Time Left" =
      some (Value.str "2.00 hours") ∧
    ("2.00 hours" : String) ≠ "2.00 hrs" := by
  decide

/-- C6 amended: for `secsleft = -1` the Time Left field renders as
`"Unknown"`, and for `secsleft = 7200` as `"2.00 hours"`, in both
`get_battery_info` and `get_power_info`. -/
theorem claim6_timeleft_amended :
    lookupVal (get_battery_info envSensorUnknown) "Time Left" =
      some (Value.str "Unknown") ∧
    lookupVal (get_battery_info envSensor7200) "Time Left" =
      some (Value.str "2.00 hours") ∧
    lookupVal (get_power_info envSensorUnknown) "Time Left" =
      some (Value.str "Unknown") ∧
    lookupVal (get_power_info envSensor7200) "Time Left" =
      some (Value.str "2.00 hours") := by
  decide

/-- A fold whose step ignores the accumulator returns the accumulator (empty
list) or the image of some traversed element — the `power_info` rebinding
loop of `get_power_info`. -/
theorem foldl_replace {α β : Type} (f : α → β) (l : List α) :
    ∀ acc : β, l.foldl (fun _ a => f a) acc = acc ∨
      ∃ a ∈ l, l.foldl (fun _ a => f a) acc = f a := by
  induction l with
  | nil => intro acc; exact Or.inl rfl
  | cons x tl ih =>
    intro acc
    rw [List.foldl_cons]
    rcases ih (f x) with h | ⟨a, ha, h⟩
    · exact Or.inr ⟨x, List.mem_cons_self _ _, h⟩
    · exact Or.inr ⟨a, List.mem_cons_of_mem _ ha, h⟩

/-- An entry whose value is not a string has its key among `targets` as
soon as every entry of the dict has a string value or a key in
`targets`. -/
theorem entry_key_of_nonstr (targets : List String) (l : Report)
    (hall : ∀ p ∈ l, p.2.isStr = true ∨ p.1 ∈ targets) :
    ∀ k v, (k, v) ∈ l → v.isStr = false → k ∈ targets := by
  intro k v hm hns
  rcases hall (k, v) hm with h | h
  · have h' : v.isStr = true := h
    rw [hns] at h'
    cases h'
  · exact h

/-- C4 amended: string formatting is fixed at collection time for the
formatted fields, but some fields store raw non-string values; in a CPU
report the non-string values are confined to the psutil core counts and
the raw WMI `Architecture`/`Family` fields, and in a power report to the
raw WMI `Battery Type`, capacity and `Expected Life` fields. -/
theorem claim4_nonstring_fields (env : Env) :
    (∀ k v, (k, v) ∈ get_cpu_info env → v.isStr = false →
      k ∈ ["Physical Cores", "Total Cores", "Architecture", "Family"]) ∧
    (∀ k v, (k, v) ∈ get_power_info env → v.isStr = false →
      k ∈ ["Battery Type", "Design Capacity", "Full Charge Capacity", "Expected Life"]) := by
  constructor
  · intro k v hm hns
    rcases hp : env.wmiProcessors with _ | ⟨_ | ⟨cpu, rest⟩⟩
    · simp [get_cpu_info, hp] at hm
      rw [hm.2] at hns
      simp [Value.isStr] at hns
    · simp [get_cpu_info, hp] at hm
      rw [hm.2] at hns
      simp [Value.isStr] at hns
    · refine entry_key_of_nonstr _ (cpuData env cpu) ?_ k v ?_ hns
      · simp only [cpuData, List.forall_mem_cons, List.not_mem_nil, false_implies,
          implies_true, and_true]
        repeat' apply And.intro
        all_goals first
          | (left; rfl)
          | (right; decide)
      · simpa [get_cpu_info, hp] using hm
  · intro k v hm hns
    rcases hf : env.powerFail with _ | msg
    · simp only [get_power_info, hf] at hm
      rcases foldl_replace
          (fun rec => powerFields rec ++
            (match env.sensorBattery with
             | some b => sensorFields b
             | Option.none => []))
          env.wmiBatteries [] with h | ⟨rec, _, h⟩
      · rw [h] at hm
        simp at hm
      · rw [h] at hm
        rcases List.mem_append.mp hm with hm' | hm'
        · refine entry_key_of_nonstr _ (powerFields rec) ?_ k v hm' hns
          simp only [powerFields, List.forall_mem_cons, List.not_mem_nil, false_implies,
            implies_true, and_true]
          repeat' apply And.intro
          all_goals first
            | (left; rfl)
            | (right; decide)
            | (left; split <;> rfl)
            | (left; split <;> (try split) <;> rfl)
        · rcases hs : env.sensorBattery with _ | b <;> simp only [hs] at hm'
          · simp at hm'
          · refine entry_key_of_nonstr _ (sensorFields b) ?_ k v hm' hns
            simp only [sensorFields, List.forall_mem_cons, List.not_mem_nil, false_implies,
              implies_true, and_true]
            repeat' apply And.intro
            all_goals left
            all_goals rfl
    · simp [get_power_info, hf] at hm
      rw [hm.2] at hns
      simp [Value.isStr] at hns

/-- Witness for C4 amended: at the concrete host `envCpuOk` the
`Physical Cores` field stores a non-string value and is indeed among the
listed exceptions. -/
theorem claim4_nonstring_fields_w :
    "Physical Cores" ∈ ["Physical Cores", "Total Cores", "Architecture", "Family"] :=
  (claim4_nonstring_fields envCpuOk).1 "Physical Cores" (Value.int 4) (by decide) rfl

/-- C9: the OS-level battery sensor is read only inside the per-record
`Win32_Battery` loop of `get_power_info`: with no hardware battery record
the whole produced story is independent of the sensor value (the
standalone `get_battery_info` is never invoked by the pipeline), and no
sensor field such as `Current Charge` appears in the power report. -/
theorem claim9_sensor_only_in_power_loop (env : Env) (s1 s2 : Option SensorBattery)
    (hb : env.wmiBatteries = []) :
    create_pdf_report { env with sensorBattery := s1 } =
      create_pdf_report { env with sensorBattery := s2 } ∧
    ∀ v : Value, ("Current Charge", v) ∉ get_power_info env := by
  have hpow : ∀ s : Option SensorBattery,
      get_power_info { env with sensorBattery := s } = get_power_info env := by
    intro s
    rcases hf : env.powerFail with _ | msg
    · simp [get_power_info, hf, hb]
    · simp [get_power_info, hf]
  constructor
  · unfold create_pdf_report
    rw [hpow s1, hpow s2]
    rfl
  · intro v hv
    rcases hf : env.powerFail with _ | msg
    · simp [get_power_info, hf, hb] at hv
    · simp [get_power_info, hf] at hv

/-- Witness for C9 at the concrete host `envNoWmiBattery`, with the two
sensor values `none` and a charged battery. -/
theorem claim9_sensor_only_in_power_loop_w :
    create_pdf_report { envNoWmiBattery with sensorBattery := Option.none } =
      create_pdf_report { envNoWmiBattery with sensorBattery := some ⟨50, true, 7200⟩ } ∧
    ∀ v : Value, ("Current Charge", v) ∉ get_power_info envNoWmiBattery :=
  claim9_sensor_only_in_power_loop envNoWmiBattery Option.none (some ⟨50, true, 7200⟩) rfl

/-- The empty sequence renders to nothing. -/
theorem renderSeqAux_nil (t : String) (b : Bool) (n : Nat) :
    renderSeqAux t b n [] = [] := rfl

/-- A non-error item with at least one string field is rendered as its
table wherever it occurs in a list rendering. -/
theorem table_mem_renderSeqAux (t : String) (b : Bool) :
    ∀ (m : Nat) (ys : List Report) (item : Report), item ∈ ys →
      lookupVal item "Error" = Option.none → (stringRows item).isEmpty = false →
      Elem.table (stringRows item) ∈ renderSeqAux t b m ys := by
  intro m ys
  induction ys generalizing m with
  | nil =>
    intro item h
    simp at h
  | cons y rest ih =>
    intro item hmem hv hrows
    rcases List.mem_cons.mp hmem with rfl | h'
    · show Elem.table (stringRows item) ∈
        renderListItem t b m item ++ renderSeqAux t b (m + 1) rest
      apply List.mem_append_left
      simp [renderListItem, hv, hrows]
    · exact List.mem_append_right _ (ih (m + 1) item h' hv hrows)

/-- C10: an error-indicator element of a rendered sequence does not abort
the section: its message paragraph is emitted in place and the remaining
elements are rendered afterwards at their original enumeration indices,
each non-error mapping with a string field still producing its table. -/
theorem claim10_error_item_continues (t : String) (b : Bool) (n : Nat)
    (xs ys : List Report) (e : Report) (v : Value)
    (hv : lookupVal e "Error" = some v) :
    renderSeqAux t b n (xs ++ e :: ys) =
      renderSeqAux t b n xs ++
        ([Elem.para v.text, Elem.spacer] ++ renderSeqAux t b (n + xs.length + 1) ys) ∧
    ∀ item ∈ ys, lookupVal item "Error" = Option.none →
      (stringRows item).isEmpty = false →
      Elem.table (stringRows item) ∈ renderSeqAux t b (n + xs.length + 1) ys := by
  constructor
  · induction xs generalizing n with
    | nil =>
      show renderListItem t b n e ++ renderSeqAux t b (n + 1) ys = _
      simp [renderListItem, hv, renderSeqAux_nil]
    | cons x tl ih =>
      show renderListItem t b n x ++ renderSeqAux t b (n + 1) (tl ++ e :: ys) = _
      rw [ih (n + 1)]
      show _ = (renderListItem t b n x ++ renderSeqAux t b (n + 1) tl) ++ _
      rw [List.append_assoc]
      have harith : n + 1 + tl.length + 1 = n + (x :: tl).length + 1 := by
        simp [List.length_cons]
        omega
      rw [harith]
  · intro item hmem hv' hrows
    exact table_mem_renderSeqAux t b (n + xs.length + 1) ys item hmem hv' hrows

/-- Witness for C10 at a concrete three-element sequence whose middle
element is the error indicator. -/
theorem claim10_error_item_continues_w :
    (renderSeqAux "Input Devices" false 0 ([okItem1] ++ errItem :: [okItem2]) =
      renderSeqAux "Input Devices" false 0 [okItem1] ++
        ([Elem.para (Value.str "boom").text, Elem.spacer] ++
          renderSeqAux "Input Devices" false (0 + [okItem1].length + 1) [okItem2])) ∧
    ∀ item ∈ [okItem2], lookupVal item "Error" = Option.none →
      (stringRows item).isEmpty = false →
      Elem.table (stringRows item) ∈
        renderSeqAux "Input Devices" false (0 + [okItem1].length + 1) [okItem2] :=
  claim10_error_item_continues "Input Devices" false 0 [okItem1] [okItem2] errItem
    (Value.str "boom") rfl

end PcReport
